import Mathlib

/-!
# Advanced network operator: Python binding module `_advanced_network_common`

A verification development for
`operators/advanced_network/python/adv_network_common_pybind.cpp`.

The first part embeds what the binding translation unit itself contains: the
exposed status enumeration and the table of `m.def` registrations, in source
order.  The second part models the burst buffer core (packet buffer pools,
burst descriptors, header accessors, port registry) whose implementation lives
in `adv_network_common.h/.cpp`; those definitions are written from the
specification and are marked as such.
-/

namespace holoscan.ops

/-! ## Part 1: the binding module -/

/-- Modelled from the spec: the native enumeration `AdvNetStatus` is declared in
`adv_network_common.h`; the binding file refers to exactly these five
enumerators (`AdvNetStatus::SUCCESS` ...), which the specification lists as the
closed StatusCode set. -/
inductive AdvNetStatus where
  | SUCCESS
  | NULL_PTR
  | NO_FREE_BURST_BUFFERS
  | NO_FREE_CPU_PACKET_BUFFERS
  | NO_FREE_GPU_PACKET_BUFFERS
  deriving DecidableEq, Repr

/-- The native spelling of an enumerator, as written after `AdvNetStatus::`. -/
def AdvNetStatus.native_name : AdvNetStatus → String
  | .SUCCESS => "SUCCESS"
  | .NULL_PTR => "NULL_PTR"
  | .NO_FREE_BURST_BUFFERS => "NO_FREE_BURST_BUFFERS"
  | .NO_FREE_CPU_PACKET_BUFFERS => "NO_FREE_CPU_PACKET_BUFFERS"
  | .NO_FREE_GPU_PACKET_BUFFERS => "NO_FREE_GPU_PACKET_BUFFERS"

/-- The StatusCode names used by the specification. -/
inductive StatusCode where
  | Success
  | NullReference
  | NoFreeBurstDescriptors
  | NoFreeCpuPacketBuffers
  | NoFreeGpuPacketBuffers
  deriving DecidableEq, Repr

/-- The specification's StatusCode that a native enumerator stands for. -/
def AdvNetStatus.toStatusCode : AdvNetStatus → StatusCode
  | .SUCCESS => .Success
  | .NULL_PTR => .NullReference
  | .NO_FREE_BURST_BUFFERS => .NoFreeBurstDescriptors
  | .NO_FREE_CPU_PACKET_BUFFERS => .NoFreeCpuPacketBuffers
  | .NO_FREE_GPU_PACKET_BUFFERS => .NoFreeGpuPacketBuffers

/-- The `.value(name, enumerator)` calls chained on
`py::enum_<AdvNetStatus>(m, "AdvNetStatus")`, in source order. -/
def AdvNetStatus_values : List (String × AdvNetStatus) :=
  [ ("SUCCESS", AdvNetStatus.SUCCESS),
    ("NULL_PTR", AdvNetStatus.NULL_PTR),
    ("NO_FREE_BURST_BUFFERS", AdvNetStatus.NO_FREE_BURST_BUFFERS),
    ("NO_FREE_CPU_PACKET_BUFFERS", AdvNetStatus.NO_FREE_CPU_PACKET_BUFFERS),
    ("NO_FREE_GPU_PACKET_BUFFERS", AdvNetStatus.NO_FREE_GPU_PACKET_BUFFERS) ]

/-- Parameter types that occur in the registrations of the module. -/
inductive CType where
  /-- The type `AdvNetBurstParams *`: the descriptor by direct reference. -/
  | burst_ptr
  /-- The type `std::shared_ptr<AdvNetBurstParams>`: the shared handle. -/
  | burst_shared_ptr
  | int
  | int64_t
  | uint16_t
  /-- The type `void *`. -/
  | void_ptr
  deriving DecidableEq, Repr

/-- The three ways the module forms the callable it hands to `m.def`. -/
inductive Callable where
  /-- The form `py::overload_cast<params...>(&target)`: selects the overload of `target`
  with exactly these parameter types. -/
  | overload_cast (params : List CType)
  /-- The form `&target`: the address of a function that is not overloaded; its
  signature comes from the header and is not visible in the binding file. -/
  | address_of
  /-- The form `[](params...) { body }`: a lambda written in the binding file;
  `returns_value` records whether its body has a `return` statement with a
  value (a body without one has return type `void`). -/
  | lambda (params : List CType) (returns_value : Bool)
  deriving DecidableEq, Repr

/-- One `m.def(name, callable, [policy,] doc)` call. -/
structure Registration where
  /-- the Python-visible name, first argument of `m.def` -/
  name : String
  /-- the native function the callable refers to or calls -/
  target : String
  callable : Callable
  doc : String
  deriving DecidableEq, Repr

/-- Every `m.def` call of `PYBIND11_MODULE(_advanced_network_common, m)` that is
not commented out, in source order. -/
def module_defs : List Registration :=
  [ ⟨"adv_net_create_burst_params", "adv_net_create_burst_params", .address_of,
      "Create a shared pointer burst params structure"⟩,
    ⟨"adv_net_free_pkt", "adv_net_free_pkt", .address_of, "Free a single packet"⟩,
    ⟨"adv_net_get_cpu_packet_len", "adv_net_get_cpu_packet_len",
      .overload_cast [.burst_ptr, .int], "Get length of the CPU portion of the packet"⟩,
    ⟨"adv_net_get_cpu_packet_len", "adv_net_get_cpu_packet_len",
      .overload_cast [.burst_shared_ptr, .int], "Get length of the CPU portion of the packet"⟩,
    ⟨"adv_net_get_gpu_packet_len", "adv_net_get_gpu_packet_len",
      .overload_cast [.burst_ptr, .int], "Get length of the GPU portion of the packet"⟩,
    ⟨"adv_net_get_gpu_packet_len", "adv_net_get_gpu_packet_len",
      .overload_cast [.burst_shared_ptr, .int], "Get length of the GPU portion of the packet"⟩,
    ⟨"adv_net_free_all_burst_pkts", "adv_net_free_all_burst_pkts",
      .overload_cast [.burst_ptr], "Free all packets in a burst"⟩,
    ⟨"adv_net_free_all_burst_pkts", "adv_net_free_all_burst_pkts",
      .overload_cast [.burst_shared_ptr], "Free all packets in a burst"⟩,
    ⟨"adv_net_free_all_burst_pkts_and_burst", "adv_net_free_all_burst_pkts_and_burst",
      .overload_cast [.burst_ptr], "Free all packets and burst structure"⟩,
    ⟨"adv_net_free_all_burst_pkts_and_burst", "adv_net_free_all_burst_pkts_and_burst",
      .overload_cast [.burst_shared_ptr], "Free all packets and burst structure"⟩,
    ⟨"adv_net_free_cpu_pkts_and_burst", "adv_net_free_cpu_pkts_and_burst",
      .overload_cast [.burst_ptr], "Free CPU packets and burst structure"⟩,
    ⟨"adv_net_free_cpu_pkts_and_burst", "adv_net_free_cpu_pkts_and_burst",
      .overload_cast [.burst_shared_ptr], "Free CPU packets and burst structure"⟩,
    ⟨"adv_net_tx_burst_available", "adv_net_tx_burst_available",
      .overload_cast [.burst_ptr], "Return true if a TX burst is available for use"⟩,
    ⟨"adv_net_tx_burst_available", "adv_net_tx_burst_available",
      .overload_cast [.burst_shared_ptr], "Return true if a TX burst is available for use"⟩,
    ⟨"adv_net_get_tx_pkt_burst", "adv_net_get_tx_pkt_burst",
      .overload_cast [.burst_ptr], "Get TX packet burst"⟩,
    ⟨"adv_net_get_tx_pkt_burst", "adv_net_get_tx_pkt_burst",
      .overload_cast [.burst_shared_ptr], "Get TX packet burst"⟩,
    ⟨"adv_net_get_num_pkts", "adv_net_get_num_pkts",
      .overload_cast [.burst_ptr], "Get number of packets in a burst"⟩,
    ⟨"adv_net_get_num_pkts", "adv_net_get_num_pkts",
      .overload_cast [.burst_shared_ptr], "Get number of packets in a burst"⟩,
    ⟨"adv_net_get_q_id", "adv_net_get_q_id",
      .overload_cast [.burst_ptr], "Get queue ID of a burst"⟩,
    ⟨"adv_net_get_q_id", "adv_net_get_q_id",
      .overload_cast [.burst_shared_ptr], "Get queue ID of a burst"⟩,
    ⟨"adv_net_set_num_pkts", "adv_net_set_num_pkts",
      .overload_cast [.burst_ptr, .int64_t], "Set number of packets in a burst"⟩,
    ⟨"adv_net_set_num_pkts", "adv_net_set_num_pkts",
      .overload_cast [.burst_shared_ptr, .int64_t], "Set number of packets in a burst"⟩,
    ⟨"adv_net_set_hdr", "adv_net_set_hdr",
      .overload_cast [.burst_ptr, .uint16_t, .uint16_t, .int64_t],
      "Set parameters of burst header"⟩,
    ⟨"adv_net_set_hdr", "adv_net_set_hdr",
      .overload_cast [.burst_shared_ptr, .uint16_t, .uint16_t, .int64_t],
      "Set parameters of burst header"⟩,
    ⟨"adv_net_free_tx_burst", "adv_net_free_tx_burst",
      .overload_cast [.burst_ptr], "Free TX burst"⟩,
    ⟨"adv_net_free_tx_burst", "adv_net_free_tx_burst",
      .overload_cast [.burst_shared_ptr], "Free TX burst"⟩,
    ⟨"adv_net_free_rx_burst", "adv_net_free_rx_burst",
      .overload_cast [.burst_ptr], "Free RX burst"⟩,
    ⟨"adv_net_free_rx_burst", "adv_net_free_rx_burst",
      .overload_cast [.burst_shared_ptr], "Free RX burst"⟩,
    ⟨"adv_net_get_cpu_pkt_ptr", "adv_net_get_cpu_pkt_ptr",
      .overload_cast [.burst_ptr, .int], "Get CPU packet pointer"⟩,
    ⟨"adv_net_get_cpu_pkt_ptr", "adv_net_get_cpu_pkt_ptr",
      .overload_cast [.burst_shared_ptr, .int], "Get CPU packet pointer"⟩,
    ⟨"adv_net_get_gpu_pkt_ptr", "adv_net_get_gpu_pkt_ptr",
      .overload_cast [.burst_ptr, .int], "Get GPU packet pointer"⟩,
    ⟨"adv_net_get_gpu_pkt_ptr", "adv_net_get_gpu_pkt_ptr",
      .overload_cast [.burst_shared_ptr, .int], "Get GPU packet pointer"⟩,
    ⟨"adv_net_get_port_from_ifname", "adv_net_get_port_from_ifname", .address_of,
      "Get port number from interface name"⟩,
    ⟨"adv_net_free_pkts", "adv_net_free_pkts", .lambda [.void_ptr, .int] false,
      "Frees a list of packets"⟩ ]

/-- The parameter types of a registration, when the binding file states them. -/
def Callable.params : Callable → Option (List CType)
  | .overload_cast ps => some ps
  | .address_of => none
  | .lambda ps _ => some ps

/-- The type of the first parameter, when the binding file states it. -/
def Callable.first_param (c : Callable) : Option CType :=
  match c.params with
  | some (p :: _) => some p
  | _ => none

/-- The parameter types after the first. -/
def Callable.rest_params (c : Callable) : List CType :=
  match c.params with
  | some (_ :: ps) => ps
  | _ => []

/-- The registrations of `name` whose first parameter has type `conv`. -/
def registrations_of (conv : CType) (name : String) : List Registration :=
  module_defs.filter (fun r => r.name == name && r.callable.first_param == some conv)

/-- Whether `name` is exposed taking the descriptor by direct reference. -/
def exposed_by_pointer (name : String) : Bool :=
  !(registrations_of .burst_ptr name).isEmpty

/-- Whether `name` is exposed taking the shared handle. -/
def exposed_by_shared_ptr (name : String) : Bool :=
  !(registrations_of .burst_shared_ptr name).isEmpty

/-- The burst operation set, by exposed name: free single packet, free all
packets, free all packets and burst, free CPU packets and burst, free TX
burst, free RX burst, packet length cpu/gpu, packet pointer cpu/gpu,
num_packets, set_num_packets, queue_id, set_header, tx_burst_available,
get_tx_pkt_burst. -/
def burst_operation_set : List String :=
  [ "adv_net_free_pkt",
    "adv_net_free_all_burst_pkts",
    "adv_net_free_all_burst_pkts_and_burst",
    "adv_net_free_cpu_pkts_and_burst",
    "adv_net_free_tx_burst",
    "adv_net_free_rx_burst",
    "adv_net_get_cpu_packet_len",
    "adv_net_get_gpu_packet_len",
    "adv_net_get_cpu_pkt_ptr",
    "adv_net_get_gpu_pkt_ptr",
    "adv_net_get_num_pkts",
    "adv_net_set_num_pkts",
    "adv_net_get_q_id",
    "adv_net_set_hdr",
    "adv_net_tx_burst_available",
    "adv_net_get_tx_pkt_burst" ]

/-- What a call made from Python evaluates to: `None` when the bound callable
has return type `void`, the converted native value otherwise. -/
inductive PyResult (ρ : Type) where
  | None
  | value (v : ρ)
  deriving DecidableEq, Repr

/-- The lambda registered as "adv_net_free_pkts":
`[](void *pkts, int len) { adv_net_free_pkts(reinterpret_cast<void**>(pkts), len); }`.
The native function (declared in the header) is a parameter: it takes the
packet array address and the length, acts on the native state `σ` and yields
some result of type `ρ`.  The lambda body is a single expression statement, so
the result of the native call is dropped and the lambda returns nothing. -/
def adv_net_free_pkts_lambda {σ ρ : Type} (adv_net_free_pkts : Nat → Int → σ → ρ × σ)
    (pkts : Nat) (len : Int) (st : σ) : PyResult ρ × σ :=
  (PyResult.None, (adv_net_free_pkts pkts len st).2)

/-- Whether the callable of a registration is a lambda written in the binding
file (as opposed to the native function itself). -/
def Callable.is_lambda : Callable → Bool
  | .lambda _ _ => true
  | _ => false

/-- Whether a call through the registration hands a value back to Python as
far as the binding file decides it: a lambda does so only when its body
returns one; a native function registered directly returns whatever its
declaration says. -/
def Callable.drops_result : Callable → Bool
  | .lambda _ returns_value => !returns_value
  | _ => false

/-! ## Part 2: the burst buffer core -/

/-- Modelled from the spec: the result type of the fallible operations of the
core (declared in `adv_network_common.h`), written `Result<T, StatusCode>` in
the specification: a value, or the status that explains why there is none. -/
inductive Result (α : Type) where
  | ok (v : α)
  | error (status : AdvNetStatus)
  deriving DecidableEq, Repr

/-- Modelled from the spec: the two payload regions a packet pool can be
backed by, "one resident in host (CPU) memory, one resident in accelerator
(GPU) memory". -/
inductive MemKind where
  | cpu
  | gpu
  deriving DecidableEq, Repr

/-- Modelled from the spec: PacketSlot, "a fixed-size buffer reference plus an
occupied/free flag and an actual-length field".  The buffer reference is the
slot's index in its pool. -/
structure PacketSlot where
  occupied : Bool
  length : Nat
  deriving DecidableEq, Repr

/-- Modelled from the spec: PacketBufferPool, "a fixed-capacity collection of
PacketSlots plus a free-list"; one instance is backed by host memory, one by
accelerator memory.  The implementation is in `adv_network_common.cpp`. -/
structure PacketBufferPool where
  kind : MemKind
  slots : List PacketSlot
  free_list : List Nat
  deriving DecidableEq, Repr

namespace PacketBufferPool

/-- Modelled from the spec: a pool of `n` slots, all free ("capacity is
configured at start-up and immutable afterward"). -/
def create (kind : MemKind) (n : Nat) : PacketBufferPool :=
  { kind := kind
    slots := List.replicate n { occupied := false, length := 0 }
    free_list := List.range n }

/-- Modelled from the spec: the capacity of a PacketBufferPool, "fixed at
construction": the number of its slots. -/
def capacity (p : PacketBufferPool) : Nat := p.slots.length

/-- Modelled from the spec: the free count of a PacketBufferPool, the length of
its free-list. -/
def free_count (p : PacketBufferPool) : Nat := p.free_list.length

/-- Modelled from the spec: the pool-specific exhaustion status,
`NoFreeCpuPacketBuffers` for the CPU pool and `NoFreeGpuPacketBuffers` for the
GPU pool. -/
def exhausted : MemKind → AdvNetStatus
  | .cpu => .NO_FREE_CPU_PACKET_BUFFERS
  | .gpu => .NO_FREE_GPU_PACKET_BUFFERS

/-- Modelled from the spec: the "occupied/free flag" of slot `s` of a
PacketBufferPool (free when `s` is no slot of the pool). -/
def is_occupied (p : PacketBufferPool) (s : Nat) : Bool :=
  match p.slots[s]? with
  | some sl => sl.occupied
  | none => false

/-- Modelled from the spec: writing the "occupied/free flag" of slot `s` of a
PacketBufferPool, keeping its actual length. -/
def set_occupied (slots : List PacketSlot) (s : Nat) (b : Bool) : List PacketSlot :=
  match slots[s]? with
  | some sl => slots.set s { sl with occupied := b }
  | none => slots

/-- Modelled from the spec: `acquire()` "returns a free slot reference or
NoFreeCpuPacketBuffers/NoFreeGpuPacketBuffers (pool-specific) when the
free-list is empty - never blocks, never grows dynamically". -/
def acquire (p : PacketBufferPool) : Result (Nat × PacketBufferPool) :=
  match p.free_list with
  | [] => .error (exhausted p.kind)
  | s :: rest =>
    .ok (s, { p with slots := set_occupied p.slots s true, free_list := rest })

/-- Modelled from the spec: `release(SlotRef)` "returns the slot to the
free-list; releasing an already-free slot is a programming error (reported, not
silently ignored)"; the report is `NullReference` and the pool is unchanged. -/
def release (p : PacketBufferPool) (s : Nat) : AdvNetStatus × PacketBufferPool :=
  if p.is_occupied s then
    (.SUCCESS, { p with slots := set_occupied p.slots s false, free_list := s :: p.free_list })
  else
    (.NULL_PTR, p)

/-- Modelled from the spec: how the release operations combine the statuses of
their parts ("caught and reported, not silently ignored"): the first status
that is not `SUCCESS`, of two. -/
def first_failure (a b : AdvNetStatus) : AdvNetStatus :=
  if a = .SUCCESS then b else a

/-- Modelled from the spec: the bulk release behind free all packets ("releases
every occupied ... slot referenced by the descriptor"): release every slot a
sequence of slot references names, in order; empty references are skipped.
The status is the first report, if any. -/
def release_refs (p : PacketBufferPool) : List (Option Nat) → AdvNetStatus × PacketBufferPool
  | [] => (.SUCCESS, p)
  | none :: rest => release_refs p rest
  | some s :: rest =>
    let r := release_refs (p.release s).2 rest
    (first_failure (p.release s).1 r.1, r.2)

end PacketBufferPool

/-- One step of a client of a pool. -/
inductive PoolOp where
  | acquire
  | release (s : Nat)
  deriving DecidableEq, Repr

/-- A pool together with the slots its client currently holds (handed out by
`acquire` and not yet given back by a successful `release`). -/
structure PoolClient where
  pool : PacketBufferPool
  live : List Nat
  deriving DecidableEq, Repr

/-- Perform one operation on behalf of the client. -/
def PoolClient.step (c : PoolClient) : PoolOp → PoolClient
  | .acquire =>
    match c.pool.acquire with
    | .ok (s, p) => { pool := p, live := s :: c.live }
    | .error _ => c
  | .release s =>
    if (c.pool.release s).1 = .SUCCESS then
      { pool := (c.pool.release s).2, live := c.live.erase s }
    else c

/-- Perform a sequence of operations, first to last. -/
def PoolClient.run (c : PoolClient) (ops : List PoolOp) : PoolClient :=
  ops.foldl PoolClient.step c

/-- A client of a freshly created pool of capacity `n`. -/
def PoolClient.init (kind : MemKind) (n : Nat) : PoolClient :=
  { pool := PacketBufferPool.create kind n, live := [] }

/-- Modelled from the spec: BurstHeader, the metadata attached to a descriptor:
`num_packets` (the logical packet count), `port_id`, `queue_id`.  The count is
kept as the integer the interface passes in (`int64_t` in the binding); that
it is non-negative and at most the capacity is the header invariant, not a
property of the field's type. -/
structure BurstHeader where
  num_packets : Int
  port_id : Nat
  queue_id : Nat
  deriving DecidableEq, Repr

/-- Modelled from the spec: BurstDescriptor, which "owns a BurstHeader plus two
parallel ordered sequences of packet-slot references: cpu_packets[0..capacity)
and gpu_packets[0..capacity), each slot either empty (unallocated) or
referencing a live slot in the corresponding PacketBufferPool". -/
structure BurstDescriptor where
  hdr : BurstHeader
  cpu_packets : List (Option Nat)
  gpu_packets : List (Option Nat)
  deriving DecidableEq, Repr

namespace BurstDescriptor

/-- Modelled from the spec: the "allocated packet-slot capacity" of a
BurstDescriptor, the common length of its two sequences of references. -/
def capacity (b : BurstDescriptor) : Nat := b.cpu_packets.length

/-- Modelled from the spec: the BurstDescriptor that `allocate(capacity)` hands
out: a zero header and `capacity` empty references on each side. -/
def fresh (capacity : Nat) : BurstDescriptor :=
  { hdr := { num_packets := 0, port_id := 0, queue_id := 0 }
    cpu_packets := List.replicate capacity none
    gpu_packets := List.replicate capacity none }

/-- Modelled from the spec: the slot references of one side of a
BurstDescriptor (`cpu_packets` or `gpu_packets`). -/
def packets (b : BurstDescriptor) : MemKind → List (Option Nat)
  | .cpu => b.cpu_packets
  | .gpu => b.gpu_packets

/-- Modelled from the spec: replacing the slot references of one side of a
BurstDescriptor. -/
def set_packets (b : BurstDescriptor) (k : MemKind) (l : List (Option Nat)) : BurstDescriptor :=
  match k with
  | .cpu => { b with cpu_packets := l }
  | .gpu => { b with gpu_packets := l }

end BurstDescriptor

/-- Modelled from the spec: BurstDescriptorPool, a "fixed-capacity pool of burst
descriptor records" with a free-list.  A record is `none` while it is in the
pool and holds the descriptor while it is handed out; a descriptor reference
is the index of its record. -/
structure BurstDescriptorPool where
  records : List (Option BurstDescriptor)
  free_list : List Nat
  deriving DecidableEq, Repr

namespace BurstDescriptorPool

/-- Modelled from the spec: a BurstDescriptorPool of `n` descriptor records,
all free. -/
def create (n : Nat) : BurstDescriptorPool :=
  { records := List.replicate n none, free_list := List.range n }

/-- Modelled from the spec: the free count of a BurstDescriptorPool, the length
of its free-list. -/
def free_count (bp : BurstDescriptorPool) : Nat := bp.free_list.length

/-- Modelled from the spec: dereferencing a descriptor reference of a
BurstDescriptorPool; `none` for an invalid reference (out of range, or a
record that is in the pool). -/
def get (bp : BurstDescriptorPool) (d : Nat) : Option BurstDescriptor :=
  match bp.records[d]? with
  | some r => r
  | none => none

/-- Modelled from the spec: writing through a descriptor reference of a
BurstDescriptorPool. -/
def put (bp : BurstDescriptorPool) (d : Nat) (b : BurstDescriptor) : BurstDescriptorPool :=
  { bp with records := bp.records.set d (some b) }

/-- Modelled from the spec: `allocate(capacity)`, "failing with
NoFreeBurstDescriptors when exhausted". -/
def allocate (bp : BurstDescriptorPool) (capacity : Nat) : Result (Nat × BurstDescriptorPool) :=
  match bp.free_list with
  | [] => .error .NO_FREE_BURST_BUFFERS
  | d :: rest =>
    .ok (d, { records := bp.records.set d (some (BurstDescriptor.fresh capacity))
              free_list := rest })

/-- Modelled from the spec: `free(DescriptorRef)` of the BurstDescriptorPool:
the record of reference `d` goes back to the pool.  That the descriptor holds
no live slot reference by then is the business of the release operations of
the manager, which are the only callers. -/
def free (bp : BurstDescriptorPool) (d : Nat) : BurstDescriptorPool :=
  { records := bp.records.set d none, free_list := d :: bp.free_list }

end BurstDescriptorPool

/-- Modelled from the spec: BurstLifecycleManager, which "orchestrates
allocation, partial release, and full teardown across the pools and handles":
the CPU pool, the GPU pool and the descriptor pool, held as explicit objects. -/
structure BurstLifecycleManager where
  cpu_pool : PacketBufferPool
  gpu_pool : PacketBufferPool
  burst_pool : BurstDescriptorPool
  deriving DecidableEq, Repr

namespace BurstLifecycleManager

/-- Modelled from the spec: a BurstLifecycleManager over fresh pools of the
configured capacities ("burst descriptors, CPU packet slots, GPU packet
slots"). -/
def create (bursts cpu_slots gpu_slots : Nat) : BurstLifecycleManager :=
  { cpu_pool := PacketBufferPool.create .cpu cpu_slots
    gpu_pool := PacketBufferPool.create .gpu gpu_slots
    burst_pool := BurstDescriptorPool.create bursts }

/-- Modelled from the spec: the PacketBufferPool of one side of a
BurstLifecycleManager. -/
def pool (m : BurstLifecycleManager) : MemKind → PacketBufferPool
  | .cpu => m.cpu_pool
  | .gpu => m.gpu_pool

/-- Modelled from the spec: replacing the PacketBufferPool of one side of a
BurstLifecycleManager. -/
def set_pool (m : BurstLifecycleManager) (k : MemKind) (p : PacketBufferPool) :
    BurstLifecycleManager :=
  match k with
  | .cpu => { m with cpu_pool := p }
  | .gpu => { m with gpu_pool := p }

/-- Modelled from the spec: the BurstDescriptor behind a reference held by a
BurstLifecycleManager, `none` when the reference is invalid. -/
def burst (m : BurstLifecycleManager) (d : Nat) : Option BurstDescriptor :=
  m.burst_pool.get d

/-- Modelled from the spec: `allocate()`: obtain a descriptor of the given
capacity from the descriptor pool. -/
def allocate (m : BurstLifecycleManager) (capacity : Nat) :
    Result (Nat × BurstLifecycleManager) :=
  match m.burst_pool.allocate capacity with
  | .ok (d, bp) => .ok (d, { m with burst_pool := bp })
  | .error e => .error e

/-- Modelled from the spec: populate the slot at index `i` of one side of a
descriptor from that side's pool ("populates packet slots from the CPU and/or
GPU PacketBufferPools").  An invalid reference, an index outside the capacity
or an index that already references a slot is reported as `NullReference`;
pool exhaustion is reported by the pool-specific status. -/
def populate (m : BurstLifecycleManager) (d : Nat) (k : MemKind) (i : Nat) :
    AdvNetStatus × BurstLifecycleManager :=
  match m.burst d with
  | none => (.NULL_PTR, m)
  | some b =>
    match (b.packets k)[i]? with
    | some none =>
      match (m.pool k).acquire with
      | .error e => (e, m)
      | .ok (s, p) =>
        (.SUCCESS,
          { (m.set_pool k p) with
            burst_pool := m.burst_pool.put d (b.set_packets k ((b.packets k).set i (some s))) })
    | _ => (.NULL_PTR, m)

/-- Modelled from the spec: free single packet: "releases the one CPU or GPU
slot at a given index back to its pool; clears that slot reference in the
descriptor"; the descriptor remains allocated and `num_packets` is unchanged. -/
def adv_net_free_pkt (m : BurstLifecycleManager) (d : Nat) (k : MemKind) (i : Nat) :
    AdvNetStatus × BurstLifecycleManager :=
  match m.burst d with
  | none => (.NULL_PTR, m)
  | some b =>
    match (b.packets k)[i]? with
    | some (some s) =>
      ((( m.pool k).release s).1,
        { (m.set_pool k ((m.pool k).release s).2) with
          burst_pool := m.burst_pool.put d (b.set_packets k ((b.packets k).set i none)) })
    | _ => (.NULL_PTR, m)

/-- Modelled from the spec: free all packets in burst: "releases every occupied
CPU and GPU slot referenced by the descriptor"; the "descriptor remains
allocated, now with zero referenced slots". -/
def adv_net_free_all_burst_pkts (m : BurstLifecycleManager) (d : Nat) :
    AdvNetStatus × BurstLifecycleManager :=
  match m.burst d with
  | none => (.NULL_PTR, m)
  | some b =>
    let rc := m.cpu_pool.release_refs b.cpu_packets
    let rg := m.gpu_pool.release_refs b.gpu_packets
    (PacketBufferPool.first_failure rc.1 rg.1,
      { cpu_pool := rc.2
        gpu_pool := rg.2
        burst_pool := m.burst_pool.put d
          { b with cpu_packets := List.replicate b.capacity none
                   gpu_packets := List.replicate b.capacity none } })

/-- Modelled from the spec: free all packets and burst: "free-all-packets, then
returns the descriptor itself to BurstDescriptorPool"; the "descriptor
reference is invalid after return". -/
def adv_net_free_all_burst_pkts_and_burst (m : BurstLifecycleManager) (d : Nat) :
    AdvNetStatus × BurstLifecycleManager :=
  match m.burst d with
  | none => (.NULL_PTR, m)
  | some _ =>
    let r := m.adv_net_free_all_burst_pkts d
    (r.1, { r.2 with burst_pool := r.2.burst_pool.free d })

/-- Modelled from the spec: free CPU packets and burst: "releases only CPU-side
slots, then returns the descriptor"; "any GPU-side slots still referenced are
NOT released - caller error if any remain".  The partial failure ("CPU slots
released but GPU slots still held") is "caught and reported": the status is
`NullReference` and, since "a descriptor must never be recycled while it holds
live packet-slot references", the descriptor stays allocated with its GPU
references. -/
def adv_net_free_cpu_pkts_and_burst (m : BurstLifecycleManager) (d : Nat) :
    AdvNetStatus × BurstLifecycleManager :=
  match m.burst d with
  | none => (.NULL_PTR, m)
  | some b =>
    let rc := m.cpu_pool.release_refs b.cpu_packets
    if b.gpu_packets.any Option.isSome then
      (.NULL_PTR,
        { m with
          cpu_pool := rc.2
          burst_pool := m.burst_pool.put d
            { b with cpu_packets := List.replicate b.capacity none } })
    else
      (rc.1, { m with cpu_pool := rc.2, burst_pool := m.burst_pool.free d })

/-- Modelled from the spec: free TX burst, a "directional convenience form of
free-all-and-burst, applied after a transmit completion". -/
def adv_net_free_tx_burst (m : BurstLifecycleManager) (d : Nat) :
    AdvNetStatus × BurstLifecycleManager :=
  m.adv_net_free_all_burst_pkts_and_burst d

/-- Modelled from the spec: free RX burst, a "directional convenience form of
free-all-and-burst, applied after a receive consumption". -/
def adv_net_free_rx_burst (m : BurstLifecycleManager) (d : Nat) :
    AdvNetStatus × BurstLifecycleManager :=
  m.adv_net_free_all_burst_pkts_and_burst d

/-- Modelled from the spec: `num_packets()`, the header accessor; an invalid
reference is `NullReference`. -/
def adv_net_get_num_pkts (m : BurstLifecycleManager) (d : Nat) : Result Int :=
  match m.burst d with
  | none => .error .NULL_PTR
  | some b => .ok b.hdr.num_packets

/-- Modelled from the spec: `queue_id()`, the header accessor. -/
def adv_net_get_q_id (m : BurstLifecycleManager) (d : Nat) : Result Nat :=
  match m.burst d with
  | none => .error .NULL_PTR
  | some b => .ok b.hdr.queue_id

/-- Modelled from the spec: `set_num_packets(n)`, which "does not itself
allocate or free slots - it only updates the logical count".  The argument is
the `int64_t` of the binding. -/
def adv_net_set_num_pkts (m : BurstLifecycleManager) (d : Nat) (num : Int) :
    AdvNetStatus × BurstLifecycleManager :=
  match m.burst d with
  | none => (.NULL_PTR, m)
  | some b =>
    (.SUCCESS,
      { m with burst_pool := m.burst_pool.put d { b with hdr := { b.hdr with num_packets := num } } })

/-- Modelled from the spec: `set_header(queue_id, port_id, num_packets)`, the
"bulk header initialization".  The arguments are the `uint16_t, uint16_t,
int64_t` of the binding. -/
def adv_net_set_hdr (m : BurstLifecycleManager) (d : Nat) (queue_id port_id : Nat) (num : Int) :
    AdvNetStatus × BurstLifecycleManager :=
  match m.burst d with
  | none => (.NULL_PTR, m)
  | some b =>
    (.SUCCESS,
      { m with
        burst_pool := m.burst_pool.put d
          { b with hdr := { num_packets := num, port_id := port_id, queue_id := queue_id } } })

end BurstLifecycleManager

/-- Modelled from the spec: the Shared BurstHandle, the second calling
convention (`std::shared_ptr<AdvNetBurstParams>` in the binding): a handle that
wraps a descriptor reference.  Its reference count and the timing of the
release it triggers are not part of this model; the operations below are the
"thin wrapper" of the design notes, with "both wrappers call into" the one
core operation. -/
structure SharedBurstHandle where
  desc : Nat
  deriving DecidableEq, Repr

/-- Modelled from the spec: the shared-handle form of `num_packets()`. -/
def BurstLifecycleManager.adv_net_get_num_pkts_shared (m : BurstLifecycleManager) (h : SharedBurstHandle) :
    Result Int :=
  m.adv_net_get_num_pkts h.desc

/-- Modelled from the spec: the shared-handle form of `set_num_packets(n)`. -/
def BurstLifecycleManager.adv_net_set_num_pkts_shared (m : BurstLifecycleManager) (h : SharedBurstHandle) (num : Int) :
    AdvNetStatus × BurstLifecycleManager :=
  m.adv_net_set_num_pkts h.desc num

/-- Modelled from the spec: the shared-handle form of
`set_header(queue_id, port_id, num_packets)`. -/
def BurstLifecycleManager.adv_net_set_hdr_shared (m : BurstLifecycleManager) (h : SharedBurstHandle)
    (queue_id port_id : Nat) (num : Int) : AdvNetStatus × BurstLifecycleManager :=
  m.adv_net_set_hdr h.desc queue_id port_id num

/-- Modelled from the spec: the shared-handle form of free all packets and
burst. -/
def BurstLifecycleManager.adv_net_free_all_burst_pkts_and_burst_shared (m : BurstLifecycleManager)
    (h : SharedBurstHandle) : AdvNetStatus × BurstLifecycleManager :=
  m.adv_net_free_all_burst_pkts_and_burst h.desc

/-- Modelled from the spec: the shared-handle form of free CPU packets and
burst. -/
def BurstLifecycleManager.adv_net_free_cpu_pkts_and_burst_shared (m : BurstLifecycleManager)
    (h : SharedBurstHandle) : AdvNetStatus × BurstLifecycleManager :=
  m.adv_net_free_cpu_pkts_and_burst h.desc

/-- What a producer or consumer may do to a descriptor it holds, short of
giving the descriptor back. -/
inductive BurstOp where
  | populate (k : MemKind) (i : Nat)
  | free_pkt (k : MemKind) (i : Nat)
  | free_all_pkts
  | set_num_pkts (num : Int)
  | set_hdr (queue_id port_id : Nat) (num : Int)
  deriving DecidableEq, Repr

/-- Perform one operation on descriptor `d`; the status is dropped, a failed
operation is visible only through the state it leaves. -/
def BurstLifecycleManager.step (m : BurstLifecycleManager) (d : Nat) : BurstOp → BurstLifecycleManager
  | .populate k i => (m.populate d k i).2
  | .free_pkt k i => (m.adv_net_free_pkt d k i).2
  | .free_all_pkts => (m.adv_net_free_all_burst_pkts d).2
  | .set_num_pkts num => (m.adv_net_set_num_pkts d num).2
  | .set_hdr q p num => (m.adv_net_set_hdr d q p num).2

/-- Perform a sequence of operations on descriptor `d`, first to last. -/
def BurstLifecycleManager.run (m : BurstLifecycleManager) (d : Nat) (ops : List BurstOp) : BurstLifecycleManager :=
  ops.foldl (fun m op => m.step d op) m

/-- Modelled from the spec: PortRegistry, which "maps an interface name (string)
to a port index (small non-negative integer), populated once at configuration
time; read-only during packet processing".  The entries are the registered
mappings. -/
structure PortRegistry where
  entries : List (String × Nat)
  deriving DecidableEq, Repr

/-- Modelled from the spec: the interface names registered in a PortRegistry. -/
def PortRegistry.names (r : PortRegistry) : List String := r.entries.map Prod.fst

/-- Modelled from the spec: `resolve(interface_name)`: "lookup is
case-sensitive, exact-match; unknown names fail with NullReference semantics
(no matching port) rather than crashing".  The implementation of
`adv_net_get_port_from_ifname` is in `adv_network_common.cpp`. -/
def adv_net_get_port_from_ifname (r : PortRegistry) (ifname : String) : Result Nat :=
  match r.entries.find? (fun e => e.1 == ifname) with
  | some e => .ok e.2
  | none => .error .NULL_PTR

/-- A registration `r` has exactly one counterpart of the same name whose first
parameter has type `conv`, and that counterpart has the same remaining
parameter types and the same documentation string. -/
def paired_with (conv : CType) (r : Registration) : Prop :=
  (registrations_of conv r.name).length = 1 ∧
  ∀ r' ∈ registrations_of conv r.name,
    r'.callable.rest_params = r.callable.rest_params ∧ r'.doc = r.doc

instance (conv : CType) (r : Registration) : Decidable (paired_with conv r) := by
  unfold paired_with; exact inferInstance

/-- The manager right after `create 1 2 2` has handed out its one descriptor
with capacity 2. -/
def one_burst_manager : BurstLifecycleManager :=
  { cpu_pool := PacketBufferPool.create .cpu 2
    gpu_pool := PacketBufferPool.create .gpu 2
    burst_pool := { records := [some (BurstDescriptor.fresh 2)], free_list := [] } }

/-- The registry of the scenario: "eth0" is port 0 and "eth1" is port 1. -/
def eth_registry : PortRegistry := { entries := [("eth0", 0), ("eth1", 1)] }

/-- The accounting a pool keeps against the slots its client holds: the
capacity and kind are those the pool was created with; free-list and live
slots are disjoint, without repetition, within the capacity, and together
account for every slot; the occupied flags mark exactly the live slots. -/
def PoolClient.consistent (c : PoolClient) (kind : MemKind) (n : Nat) : Prop :=
  c.pool.kind = kind ∧ c.pool.capacity = n ∧
  (c.pool.free_list ++ c.live).Nodup ∧
  (∀ s ∈ c.pool.free_list ++ c.live, s < n) ∧
  c.pool.free_list.length + c.live.length = n ∧
  ∀ s, c.pool.is_occupied s = true ↔ s ∈ c.live

/-- The slots a sequence of slot references names, in order. -/
def live_refs : List (Option Nat) → List Nat
  | [] => []
  | none :: rest => live_refs rest
  | some s :: rest => s :: live_refs rest

/-- The free-list of a pool is sound: without repetition, and each entry is a
slot of the pool whose flag says free. -/
def PacketBufferPool.well_formed (p : PacketBufferPool) : Prop :=
  p.free_list.Nodup ∧ ∀ s ∈ p.free_list, s < p.capacity ∧ p.is_occupied s = false

instance (p : PacketBufferPool) : Decidable p.well_formed := by
  unfold PacketBufferPool.well_formed; exact inferInstance

/-- A pool serves a sequence of slot references: its free-list is sound, the
references name pairwise distinct slots, and each of them is occupied. -/
def PacketBufferPool.serves (p : PacketBufferPool) (refs : List (Option Nat)) : Prop :=
  p.well_formed ∧ (live_refs refs).Nodup ∧ ∀ s ∈ live_refs refs, p.is_occupied s = true

instance (p : PacketBufferPool) (refs : List (Option Nat)) : Decidable (p.serves refs) := by
  unfold PacketBufferPool.serves; exact inferInstance

/-- Every entry of the descriptor free-list is the index of a record. -/
def BurstDescriptorPool.free_list_in_range (bp : BurstDescriptorPool) : Prop :=
  ∀ d ∈ bp.free_list, d < bp.records.length

instance (bp : BurstDescriptorPool) : Decidable bp.free_list_in_range := by
  unfold BurstDescriptorPool.free_list_in_range; exact inferInstance

/-- The books of the pools balance for descriptor `d` against the free counts
`cpu0`, `gpu0`, `bursts0` taken before `d` was allocated: `d` is valid, both
pools serve its references, every slot missing from a pool's free-list is
referenced by `d`, and `d` is the one record missing from the descriptor
free-list. -/
def BurstLifecycleManager.accounts (m : BurstLifecycleManager) (d : Nat)
    (cpu0 gpu0 bursts0 : Nat) : Prop :=
  m.burst_pool.free_count + 1 = bursts0 ∧
  ∃ b, m.burst d = some b ∧
    m.cpu_pool.serves b.cpu_packets ∧ m.gpu_pool.serves b.gpu_packets ∧
    m.cpu_pool.free_count + (live_refs b.cpu_packets).length = cpu0 ∧
    m.gpu_pool.free_count + (live_refs b.gpu_packets).length = gpu0

/-- The state of the scenario: the descriptor of capacity 2 of
`one_burst_manager` with only `cpu[0]` and `gpu[0]` populated. -/
def scenario_manager : BurstLifecycleManager :=
  one_burst_manager.run 0 [.populate .cpu 0, .populate .gpu 0]

/-- The descriptor of `scenario_manager`. -/
def scenario_burst : BurstDescriptor :=
  { hdr := { num_packets := 0, port_id := 0, queue_id := 0 }
    cpu_packets := [some 0, none]
    gpu_packets := [some 0, none] }

/-! ## Theorems about the binding module -/

/-- C1, as stated, fails: free single packet (`adv_net_free_pkt`) belongs to the
burst operation set but has no registration taking `AdvNetBurstParams *` and
none taking `std::shared_ptr<AdvNetBurstParams>`, so not every operation of the
set is exposed in both calling conventions. -/
theorem free_pkt_not_in_both_conventions :
    "adv_net_free_pkt" ∈ burst_operation_set ∧
    exposed_by_pointer "adv_net_free_pkt" = false ∧
    exposed_by_shared_ptr "adv_net_free_pkt" = false ∧
    ¬ (∀ op ∈ burst_operation_set,
        exposed_by_pointer op = true ∧ exposed_by_shared_ptr op = true) := by
  decide

/-- C1, amended: every operation of the burst operation set other than free
single packet is exposed in both calling conventions (a registration whose
first parameter is `AdvNetBurstParams *` and one whose first parameter is
`std::shared_ptr<AdvNetBurstParams>`); free single packet is registered exactly
once, as the address of the native function, without overload selection. -/
theorem burst_operations_dual_except_free_pkt :
    (∀ op ∈ burst_operation_set, op ≠ "adv_net_free_pkt" →
      exposed_by_pointer op = true ∧ exposed_by_shared_ptr op = true) ∧
    module_defs.filter (fun r => r.name == "adv_net_free_pkt") =
      [⟨"adv_net_free_pkt", "adv_net_free_pkt", .address_of, "Free a single packet"⟩] := by
  decide

/-- C6: the exposed status enumeration has exactly five members, with pairwise
distinct exposed names and pairwise distinct native values; every native
enumerator is exposed; each exposed name is the native name of the value it is
bound to; and the members stand, in order and one-to-one, for Success,
NullReference, NoFreeBurstDescriptors, NoFreeCpuPacketBuffers and
NoFreeGpuPacketBuffers. -/
theorem status_enum_five_distinct_members :
    AdvNetStatus_values.length = 5 ∧
    (AdvNetStatus_values.map Prod.fst).Nodup ∧
    (AdvNetStatus_values.map Prod.snd).Nodup ∧
    (∀ s : AdvNetStatus, s ∈ AdvNetStatus_values.map Prod.snd) ∧
    (∀ e ∈ AdvNetStatus_values, e.1 = e.2.native_name) ∧
    AdvNetStatus_values.map Prod.fst =
      ["SUCCESS", "NULL_PTR", "NO_FREE_BURST_BUFFERS", "NO_FREE_CPU_PACKET_BUFFERS",
        "NO_FREE_GPU_PACKET_BUFFERS"] ∧
    AdvNetStatus_values.map (fun e => e.2.toStatusCode) =
      [.Success, .NullReference, .NoFreeBurstDescriptors, .NoFreeCpuPacketBuffers,
        .NoFreeGpuPacketBuffers] ∧
    Function.Bijective AdvNetStatus.toStatusCode := by
  refine ⟨by decide, by decide, by decide, ?_, by decide, by decide, by decide, ?_, ?_⟩
  · intro s; cases s <;> decide
  · intro a b h; cases a <;> cases b <;> first | rfl | cases h
  · intro c; cases c
    · exact ⟨.SUCCESS, rfl⟩
    · exact ⟨.NULL_PTR, rfl⟩
    · exact ⟨.NO_FREE_BURST_BUFFERS, rfl⟩
    · exact ⟨.NO_FREE_CPU_PACKET_BUFFERS, rfl⟩
    · exact ⟨.NO_FREE_GPU_PACKET_BUFFERS, rfl⟩

/-- C7, as stated, fails: the bulk release `adv_net_free_pkts` is registered as a
lambda whose body has no `return`; called on a native function that reports
`SUCCESS`, it hands `None` to the caller and no status value. -/
theorem free_pkts_lambda_yields_no_status :
    (module_defs.filter (fun r => r.name == "adv_net_free_pkts")).map
        (fun r => r.callable) = [.lambda [.void_ptr, .int] false] ∧
    (adv_net_free_pkts_lambda (fun _ _ (st : Unit) => (AdvNetStatus.SUCCESS, st)) 0 0 ()).1 =
      PyResult.None ∧
    ¬ ∃ status : AdvNetStatus,
      (adv_net_free_pkts_lambda (fun _ _ (st : Unit) => (AdvNetStatus.SUCCESS, st)) 0 0 ()).1 =
        PyResult.value status := by
  refine ⟨by decide, rfl, ?_⟩
  rintro ⟨status, h⟩
  cases h

/-- C7, amended: `adv_net_free_pkts` is exposed through a wrapper that performs
the native call and returns nothing (`None`) for every input, whatever the
native function yields; it is the only registration whose callable is written
in the binding file, every other one hands the native function itself to the
module, so the binding neither adds nor drops a result there. -/
theorem free_pkts_lambda_returns_none :
    (∀ (σ ρ : Type) (native : Nat → Int → σ → ρ × σ) (pkts : Nat) (len : Int) (st : σ),
      adv_net_free_pkts_lambda native pkts len st = (PyResult.None, (native pkts len st).2)) ∧
    (module_defs.filter (fun r => r.callable.drops_result)).map (fun r => r.name) =
      ["adv_net_free_pkts"] ∧
    (∀ r ∈ module_defs, r.name ≠ "adv_net_free_pkts" → r.callable.is_lambda = false) := by
  refine ⟨fun _ _ _ _ _ _ => rfl, by decide, by decide⟩

/-- C10: the direct-reference and shared-handle registrations are in one-to-one
correspondence: every registration whose first parameter is
`AdvNetBurstParams *` has exactly one registration of the same name whose first
parameter is `std::shared_ptr<AdvNetBurstParams>`, and conversely; the two have
the same remaining parameter types, which are none, `int`, `int64_t` or
`uint16_t, uint16_t, int64_t`, and the same documentation string. -/
theorem overloads_one_to_one :
    (∀ r ∈ module_defs, r.callable.first_param = some .burst_ptr →
      paired_with .burst_shared_ptr r ∧ (registrations_of .burst_ptr r.name).length = 1 ∧
      r.callable.rest_params ∈
        [[], [.int], [.int64_t], [CType.uint16_t, CType.uint16_t, CType.int64_t]]) ∧
    (∀ r ∈ module_defs, r.callable.first_param = some .burst_shared_ptr →
      paired_with .burst_ptr r ∧ (registrations_of .burst_shared_ptr r.name).length = 1) := by
  decide

/-! ## Theorems about the header accessors and the port registry -/

/-- A valid reference is the index of a record of the pool. -/
theorem BurstDescriptorPool.lt_of_get {bp : BurstDescriptorPool} {d : Nat} {b : BurstDescriptor}
    (h : bp.get d = some b) : d < bp.records.length := by
  unfold BurstDescriptorPool.get at h
  by_contra hlt
  rw [List.getElem?_eq_none (Nat.le_of_not_lt hlt)] at h
  cases h

/-- The record of a valid reference holds the descriptor. -/
theorem BurstDescriptorPool.getElem_of_get {bp : BurstDescriptorPool} {d : Nat}
    {b : BurstDescriptor} (h : bp.get d = some b) : bp.records[d]? = some (some b) := by
  unfold BurstDescriptorPool.get at h
  cases hr : bp.records[d]? with
  | none => rw [hr] at h; cases h
  | some r => rw [hr] at h; simp only at h; rw [h]

/-- Reading back a descriptor that was just written. -/
theorem BurstDescriptorPool.get_put {bp : BurstDescriptorPool} {d : Nat}
    {b : BurstDescriptor} (h : bp.get d = some b) (b1 : BurstDescriptor) :
    (bp.put d b1).get d = some b1 := by
  have hlt := BurstDescriptorPool.lt_of_get h
  simp [BurstDescriptorPool.get, BurstDescriptorPool.put, List.getElem?_set, hlt]

/-- The free-list is untouched by writing a descriptor. -/
theorem BurstDescriptorPool.free_list_put (bp : BurstDescriptorPool) (d : Nat)
    (b1 : BurstDescriptor) : (bp.put d b1).free_list = bp.free_list := rfl

/-- C5: for every valid descriptor and every integer `n` with
`0 ≤ n ≤ capacity`, `set_num_packets(n)` succeeds and a following
`num_packets()` returns exactly `n`, through the direct reference and through
the shared handle alike. -/
theorem set_then_get_num_pkts (m : BurstLifecycleManager) (d : Nat) (b : BurstDescriptor)
    (hvalid : m.burst d = some b) (n : Int) (_h0 : 0 ≤ n) (_hcap : n ≤ (b.capacity : Int)) :
    (m.adv_net_set_num_pkts d n).1 = .SUCCESS ∧
    (m.adv_net_set_num_pkts d n).2.adv_net_get_num_pkts d = .ok n ∧
    (BurstLifecycleManager.adv_net_set_num_pkts_shared m ⟨d⟩ n).1 = .SUCCESS ∧
    BurstLifecycleManager.adv_net_get_num_pkts_shared
      (BurstLifecycleManager.adv_net_set_num_pkts_shared m ⟨d⟩ n).2 ⟨d⟩ = .ok n := by
  have hget : m.burst_pool.get d = some b := hvalid
  have key : (m.adv_net_set_num_pkts d n).1 = .SUCCESS ∧
      (m.adv_net_set_num_pkts d n).2.adv_net_get_num_pkts d = .ok n := by
    simp only [BurstLifecycleManager.adv_net_set_num_pkts,
      BurstLifecycleManager.adv_net_get_num_pkts, BurstLifecycleManager.burst, hget,
      BurstDescriptorPool.get_put hget, and_self]
  exact ⟨key.1, key.2, key.1, key.2⟩

/-- C5 at a concrete input: on the descriptor of capacity 2 of
`one_burst_manager`, setting the count to 2 and reading it back gives 2. -/
theorem set_then_get_num_pkts_witness :
    one_burst_manager.burst 0 = some (BurstDescriptor.fresh 2) ∧
    (one_burst_manager.adv_net_set_num_pkts 0 2).2.adv_net_get_num_pkts 0 = .ok 2 ∧
    BurstLifecycleManager.adv_net_get_num_pkts_shared
      (BurstLifecycleManager.adv_net_set_num_pkts_shared one_burst_manager ⟨0⟩ 2).2 ⟨0⟩ = .ok 2 :=
  ⟨by decide,
    (set_then_get_num_pkts one_burst_manager 0 (BurstDescriptor.fresh 2) (by decide) 2
      (by decide) (by decide)).2.1,
    (set_then_get_num_pkts one_burst_manager 0 (BurstDescriptor.fresh 2) (by decide) 2
      (by decide) (by decide)).2.2.2⟩

/-- The lookup on a list of entries whose names are pairwise distinct. -/
theorem find_entry_of_mem (l : List (String × Nat)) (hnd : (l.map Prod.fst).Nodup)
    (ifname : String) (idx : Nat) (hmem : (ifname, idx) ∈ l) :
    l.find? (fun e => e.1 == ifname) = some (ifname, idx) := by
  induction l with
  | nil => cases hmem
  | cons e rest ih =>
    rw [List.map_cons, List.nodup_cons] at hnd
    rcases List.mem_cons.mp hmem with heq | hin
    · subst heq
      simp [List.find?_cons]
    · have hne : e.1 ≠ ifname := by
        intro he
        apply hnd.1
        rw [he]
        exact List.mem_map.mpr ⟨(ifname, idx), hin, rfl⟩
      have hb : (e.1 == ifname) = false := by simpa using hne
      rw [List.find?_cons, hb]
      exact ih hnd.2 hin

/-- C9: port resolution is an exact, case-sensitive lookup.  In a registry whose
interface names are pairwise distinct, a name resolves to `idx` exactly when
the mapping name -> `idx` is registered (the name compared as a string,
character for character), and a name that is not registered yields the
not-found status `NullReference`; in both cases the lookup returns. -/
theorem port_lookup_exact (r : PortRegistry) (hmap : r.names.Nodup) (ifname : String) :
    (∀ idx, (ifname, idx) ∈ r.entries ↔ adv_net_get_port_from_ifname r ifname = .ok idx) ∧
    (ifname ∉ r.names ↔ adv_net_get_port_from_ifname r ifname = .error .NULL_PTR) := by
  constructor
  · intro idx
    constructor
    · intro hmem
      simp only [adv_net_get_port_from_ifname,
        find_entry_of_mem r.entries hmap ifname idx hmem]
    · intro h
      unfold adv_net_get_port_from_ifname at h
      cases hf : r.entries.find? (fun e => e.1 == ifname) with
      | none => rw [hf] at h; cases h
      | some e =>
        rw [hf] at h
        have hname : e.1 = ifname := by simpa using List.find?_some hf
        have hidx : e.2 = idx := by simpa using h
        have hin := List.mem_of_find?_eq_some hf
        rw [← hname, ← hidx]
        exact hin
  · constructor
    · intro hnot
      have hf : r.entries.find? (fun e => e.1 == ifname) = none := by
        rw [List.find?_eq_none]
        intro e he hb
        apply hnot
        have hname : e.1 = ifname := by simpa using hb
        rw [← hname]
        exact List.mem_map.mpr ⟨e, he, rfl⟩
      simp only [adv_net_get_port_from_ifname, hf]
    · intro h hin
      obtain ⟨e, he, hname⟩ := List.mem_map.mp hin
      have hmem : (ifname, e.2) ∈ r.entries := by rw [← hname]; exact he
      have := find_entry_of_mem r.entries hmap ifname e.2 hmem
      simp only [adv_net_get_port_from_ifname, this] at h
      cases h

/-- C9 at the scenario of the specification: with "eth0" -> 0 and "eth1" -> 1
registered, "eth0" resolves to port 0, "eth9" is not found, and neither is
"ETH0", which differs from a registered name only in case. -/
theorem port_lookup_exact_witness :
    eth_registry.names.Nodup ∧
    adv_net_get_port_from_ifname eth_registry "eth0" = .ok 0 ∧
    adv_net_get_port_from_ifname eth_registry "eth9" = .error .NULL_PTR ∧
    adv_net_get_port_from_ifname eth_registry "ETH0" = .error .NULL_PTR :=
  ⟨by decide,
    ((port_lookup_exact eth_registry (by decide) "eth0").1 0).mp (by decide),
    (port_lookup_exact eth_registry (by decide) "eth9").2.mp (by decide),
    (port_lookup_exact eth_registry (by decide) "ETH0").2.mp (by decide)⟩

/-! ## Theorems about the packet buffer pool -/

/-- Writing a flag keeps the number of slots. -/
theorem PacketBufferPool.length_set_occupied (slots : List PacketSlot) (s : Nat) (b : Bool) :
    (PacketBufferPool.set_occupied slots s b).length = slots.length := by
  unfold PacketBufferPool.set_occupied
  cases slots[s]? with
  | none => rfl
  | some sl => simp only [List.length_set]

/-- Reading a flag after one was written. -/
theorem PacketBufferPool.is_occupied_set_occupied (p : PacketBufferPool) (s t : Nat) (b : Bool)
    (fl : List Nat) :
    PacketBufferPool.is_occupied
      { kind := p.kind, slots := PacketBufferPool.set_occupied p.slots s b, free_list := fl } t =
      if t = s ∧ s < p.slots.length then b else p.is_occupied t := by
  unfold PacketBufferPool.is_occupied PacketBufferPool.set_occupied
  cases hs : p.slots[s]? with
  | none =>
    have hge : ¬ s < p.slots.length := by
      intro hlt
      rw [List.getElem?_eq_getElem hlt] at hs
      cases hs
    simp [hge]
  | some sl =>
    have hlt : s < p.slots.length := by
      by_contra hge
      rw [List.getElem?_eq_none (Nat.le_of_not_lt hge)] at hs
      cases hs
    by_cases hts : t = s
    · subst hts
      simp [List.getElem?_set, hlt]
    · have hst : ¬ s = t := fun h => hts h.symm
      simp [List.getElem?_set, hst, hts]

/-- No slot of a fresh pool is occupied. -/
theorem PacketBufferPool.is_occupied_create (kind : MemKind) (n s : Nat) :
    (PacketBufferPool.create kind n).is_occupied s = false := by
  unfold PacketBufferPool.is_occupied PacketBufferPool.create
  by_cases hlt : s < n
  · simp [List.getElem?_replicate, hlt]
  · simp [List.getElem?_replicate, hlt]

/-- The client of a fresh pool is consistent. -/
theorem PoolClient.consistent_init (kind : MemKind) (n : Nat) :
    (PoolClient.init kind n).consistent kind n := by
  refine ⟨rfl, ?_, ?_, ?_, ?_, ?_⟩
  · simp [PoolClient.init, PacketBufferPool.create, PacketBufferPool.capacity]
  · simp [PoolClient.init, PacketBufferPool.create, List.nodup_range]
  · intro s hs
    simpa [PoolClient.init, PacketBufferPool.create] using hs
  · simp [PoolClient.init, PacketBufferPool.create]
  · intro s
    simp [PoolClient.init, PacketBufferPool.is_occupied_create]

/-- Every operation keeps the client consistent. -/
theorem PoolClient.consistent_step (c : PoolClient) (kind : MemKind) (n : Nat)
    (h : c.consistent kind n) (op : PoolOp) : (c.step op).consistent kind n := by
  obtain ⟨hk, hcap, hnd, hlt, hlen, hocc⟩ := h
  cases op with
  | acquire =>
    unfold PoolClient.step PacketBufferPool.acquire
    cases hfl : c.pool.free_list with
    | nil => exact ⟨hk, hcap, hnd, hlt, hlen, hocc⟩
    | cons s rest =>
      rw [hfl] at hnd hlt hlen
      have hnd1 : (s :: (rest ++ c.live)).Nodup := by simpa using hnd
      have hs_lt : s < c.pool.slots.length := by
        have : s < n := hlt s (by simp)
        rw [← hcap] at this
        exact this
      refine ⟨hk, ?_, ?_, ?_, ?_, ?_⟩
      · simpa [PacketBufferPool.capacity, PacketBufferPool.length_set_occupied] using hcap
      · exact List.nodup_middle.mpr hnd1
      · intro t ht
        apply hlt t
        simp only [List.mem_append, List.mem_cons] at ht ⊢
        tauto
      · simp only [List.length_cons] at hlen ⊢
        omega
      · intro t
        simp only [PacketBufferPool.is_occupied_set_occupied, List.mem_cons]
        by_cases hts : t = s
        · simp [hts, hs_lt]
        · simp only [hts, false_and, if_false, false_or]
          exact hocc t
  | release s =>
    unfold PoolClient.step PacketBufferPool.release
    by_cases ho : c.pool.is_occupied s = true
    · have hmem : s ∈ c.live := (hocc s).mp ho
      have hnd_app := List.nodup_append.mp hnd
      have hnd_live : c.live.Nodup := hnd_app.2.1
      have hs_free : s ∉ c.pool.free_list := fun hf => hnd_app.2.2 hf hmem
      have hs_lt : s < c.pool.slots.length := by
        have : s < n := hlt s (List.mem_append_right _ hmem)
        rw [← hcap] at this
        exact this
      simp only [ho, if_true]
      refine ⟨hk, ?_, ?_, ?_, ?_, ?_⟩
      · simpa [PacketBufferPool.capacity, PacketBufferPool.length_set_occupied] using hcap
      · simp only [List.cons_append, List.nodup_cons, List.mem_append, not_or]
        refine ⟨⟨hs_free, ?_⟩, ?_⟩
        · intro hin
          exact ((hnd_live.mem_erase_iff).mp hin).1 rfl
        · exact hnd.sublist (List.Sublist.append (List.Sublist.refl _) (List.erase_sublist _ _))
      · intro t ht
        simp only [List.cons_append, List.mem_cons, List.mem_append] at ht
        rcases ht with rfl | hf | he
        · exact hlt _ (List.mem_append_right _ hmem)
        · exact hlt t (List.mem_append_left _ hf)
        · exact hlt t (List.mem_append_right _ (List.mem_of_mem_erase he))
      · have hpos : 0 < c.live.length := List.length_pos_of_mem hmem
        simp only [List.length_cons, List.length_erase_of_mem hmem]
        omega
      · intro t
        simp only [PacketBufferPool.is_occupied_set_occupied]
        by_cases hts : t = s
        · subst hts
          simp only [hs_lt, and_self, if_true]
          constructor
          · intro hf; cases hf
          · intro hin
            exact absurd rfl ((hnd_live.mem_erase_iff).mp hin).1
        · simp only [hts, false_and, if_false]
          rw [hocc t, hnd_live.mem_erase_iff]
          exact ⟨fun h => ⟨hts, h⟩, fun h => h.2⟩
    · have hf : c.pool.is_occupied s = false := by simpa using ho
      simp only [hf]
      exact ⟨hk, hcap, hnd, hlt, hlen, hocc⟩

/-- Every sequence of operations keeps the client consistent. -/
theorem PoolClient.consistent_run (kind : MemKind) (n : Nat) (ops : List PoolOp)
    (c : PoolClient) (h : c.consistent kind n) : (c.run ops).consistent kind n := by
  induction ops generalizing c with
  | nil => exact h
  | cons op rest ih =>
    exact ih (c.step op) (PoolClient.consistent_step c kind n h op)

/-- C4: after every sequence of acquire/release operations on a pool created
with capacity `n`, the slots handed out and not yet released are pairwise
distinct slots of the pool and at most `n` in number; an acquire made while
`n` slots are live returns the pool-specific exhaustion status
(`NO_FREE_CPU_PACKET_BUFFERS` for the CPU pool, `NO_FREE_GPU_PACKET_BUFFERS` for
the GPU pool); while fewer are live an acquire hands out a slot that is not
live; and after the release of any live slot, which succeeds, the next acquire
succeeds. -/
theorem pool_live_slots_bounded (kind : MemKind) (n : Nat) (ops : List PoolOp) :
    ((PoolClient.init kind n).run ops).live.Nodup ∧
    ((PoolClient.init kind n).run ops).live.length ≤ n ∧
    (∀ s ∈ ((PoolClient.init kind n).run ops).live, s < n) ∧
    (((PoolClient.init kind n).run ops).live.length = n →
      ((PoolClient.init kind n).run ops).pool.acquire =
        .error (PacketBufferPool.exhausted kind)) ∧
    (((PoolClient.init kind n).run ops).live.length < n →
      ∃ s p, ((PoolClient.init kind n).run ops).pool.acquire = .ok (s, p) ∧
        s ∉ ((PoolClient.init kind n).run ops).live) ∧
    (∀ s ∈ ((PoolClient.init kind n).run ops).live,
      (((PoolClient.init kind n).run ops).pool.release s).1 = .SUCCESS ∧
      ∃ s1 p1, (((PoolClient.init kind n).run ops).pool.release s).2.acquire = .ok (s1, p1)) ∧
    (PacketBufferPool.exhausted .cpu = .NO_FREE_CPU_PACKET_BUFFERS ∧
      PacketBufferPool.exhausted .gpu = .NO_FREE_GPU_PACKET_BUFFERS) := by
  have hcons := PoolClient.consistent_run kind n ops _ (PoolClient.consistent_init kind n)
  generalize (PoolClient.init kind n).run ops = c at hcons
  obtain ⟨hk, hcap, hnd, hlt, hlen, hocc⟩ := hcons
  have hnd_app := List.nodup_append.mp hnd
  refine ⟨hnd_app.2.1, by omega, fun s hs => hlt s (List.mem_append_right _ hs), ?_, ?_, ?_,
    rfl, rfl⟩
  · intro hfull
    have hfree : c.pool.free_list = [] := List.eq_nil_of_length_eq_zero (by omega)
    simp only [PacketBufferPool.acquire, hfree, hk]
  · intro hroom
    cases hfl : c.pool.free_list with
    | nil => rw [hfl] at hlen; simp only [List.length_nil] at hlen; omega
    | cons s rest =>
      refine ⟨s, _, by simp only [PacketBufferPool.acquire, hfl]; rfl, ?_⟩
      intro hin
      exact hnd_app.2.2 (by rw [hfl]; exact List.mem_cons_self s rest) hin
  · intro s hs
    have ho : c.pool.is_occupied s = true := (hocc s).mpr hs
    refine ⟨by simp only [PacketBufferPool.release, ho, if_true], ?_⟩
    exact ⟨s, _, by simp only [PacketBufferPool.release, ho, if_true, PacketBufferPool.acquire]; rfl⟩

/-- C4 at the scenario of the specification: a CPU pool of capacity 4; four
acquires succeed and leave four live slots; the fifth acquire returns
`NO_FREE_CPU_PACKET_BUFFERS` and changes nothing; after one release the next
acquire succeeds. -/
theorem pool_live_slots_bounded_witness :
    ((PoolClient.init .cpu 4).run [.acquire, .acquire, .acquire, .acquire]).live.length = 4 ∧
    ((PoolClient.init .cpu 4).run [.acquire, .acquire, .acquire, .acquire]).pool.acquire =
      .error .NO_FREE_CPU_PACKET_BUFFERS ∧
    (PoolClient.init .cpu 4).run [.acquire, .acquire, .acquire, .acquire, .acquire] =
      (PoolClient.init .cpu 4).run [.acquire, .acquire, .acquire, .acquire] ∧
    ((PoolClient.init .cpu 4).run
      [.acquire, .acquire, .acquire, .acquire, .acquire, .release 1, .acquire]).live.length = 4 ∧
    ((PoolClient.init .gpu 4).run [.acquire, .acquire, .acquire, .acquire]).pool.acquire =
      .error .NO_FREE_GPU_PACKET_BUFFERS :=
  ⟨by decide,
    (pool_live_slots_bounded .cpu 4 [.acquire, .acquire, .acquire, .acquire]).2.2.2.1 (by decide),
    by decide, by decide,
    (pool_live_slots_bounded .gpu 4 [.acquire, .acquire, .acquire, .acquire]).2.2.2.1 (by decide)⟩

/-! ## Theorems about the release granularities -/

/-- Filling an empty reference adds the slot to the named slots. -/
theorem live_refs_set_some (refs : List (Option Nat)) (i s : Nat)
    (h : refs[i]? = some none) :
    (live_refs (refs.set i (some s))).Perm (s :: live_refs refs) := by
  induction refs generalizing i with
  | nil => simp at h
  | cons r rest ih =>
    cases i with
    | zero =>
      have hr : r = none := by simpa using h
      subst hr
      exact List.Perm.refl _
    | succ j =>
      have hj : rest[j]? = some none := by simpa using h
      cases r with
      | none => exact ih j hj
      | some a =>
        simp only [List.set_cons_succ, live_refs]
        exact ((ih j hj).cons a).trans (List.Perm.swap s a _)

/-- Clearing a reference removes its slot from the named slots. -/
theorem live_refs_set_none (refs : List (Option Nat)) (i s : Nat)
    (h : refs[i]? = some (some s)) :
    (s :: live_refs (refs.set i none)).Perm (live_refs refs) := by
  induction refs generalizing i with
  | nil => simp at h
  | cons r rest ih =>
    cases i with
    | zero =>
      have hr : r = some s := by simpa using h
      subst hr
      exact List.Perm.refl _
    | succ j =>
      have hj : rest[j]? = some (some s) := by simpa using h
      cases r with
      | none => exact ih j hj
      | some a =>
        simp only [List.set_cons_succ, live_refs]
        exact (List.Perm.swap a s _).trans ((ih j hj).cons a)

/-- A sequence of empty references names no slot. -/
theorem live_refs_replicate_none (n : Nat) : live_refs (List.replicate n none) = [] := by
  induction n with
  | zero => rfl
  | succ k ih => simpa [List.replicate_succ, live_refs] using ih

/-- An occupied slot is a slot of the pool. -/
theorem PacketBufferPool.lt_of_is_occupied {p : PacketBufferPool} {s : Nat}
    (h : p.is_occupied s = true) : s < p.slots.length := by
  unfold PacketBufferPool.is_occupied at h
  by_contra hge
  rw [List.getElem?_eq_none (Nat.le_of_not_lt hge)] at h
  cases h

/-- What a successful acquire does to a pool with a sound free-list. -/
theorem PacketBufferPool.acquire_spec {p p1 : PacketBufferPool} {s : Nat}
    (hwf : p.well_formed) (h : p.acquire = .ok (s, p1)) :
    p.free_list = s :: p1.free_list ∧ p1.well_formed ∧ p.is_occupied s = false ∧
    p1.is_occupied s = true ∧ ∀ t, t ≠ s → p1.is_occupied t = p.is_occupied t := by
  unfold PacketBufferPool.acquire at h
  cases hfl : p.free_list with
  | nil => rw [hfl] at h; cases h
  | cons s0 rest =>
    rw [hfl] at h
    simp only [Result.ok.injEq, Prod.mk.injEq] at h
    obtain ⟨hs, hp⟩ := h
    subst hs
    subst hp
    obtain ⟨hnd, hfree⟩ := hwf
    rw [hfl] at hnd hfree
    have hs0 := hfree s0 (List.mem_cons_self _ _)
    have hlt : s0 < p.slots.length := hs0.1
    have hflag : ∀ t, PacketBufferPool.is_occupied
        { kind := p.kind, slots := PacketBufferPool.set_occupied p.slots s0 true,
          free_list := rest } t = if t = s0 ∧ s0 < p.slots.length then true else p.is_occupied t :=
      fun t => PacketBufferPool.is_occupied_set_occupied p s0 t true rest
    refine ⟨rfl, ⟨(List.nodup_cons.mp hnd).2, ?_⟩, hs0.2, ?_, ?_⟩
    · intro t ht
      have htne : t ≠ s0 := by
        intro he
        subst he
        exact (List.nodup_cons.mp hnd).1 ht
      have hold := hfree t (List.mem_cons_of_mem _ ht)
      refine ⟨?_, ?_⟩
      · simpa [PacketBufferPool.capacity, PacketBufferPool.length_set_occupied] using hold.1
      · rw [hflag t]
        simp only [htne, false_and, if_false]
        exact hold.2
    · rw [hflag s0]
      simp only [hlt, and_self, if_true]
    · intro t htne
      rw [hflag t]
      simp only [htne, false_and, if_false]

/-- What the release of an occupied slot does to a pool with a sound free-list. -/
theorem PacketBufferPool.release_spec {p : PacketBufferPool} {s : Nat}
    (hwf : p.well_formed) (ho : p.is_occupied s = true) :
    (p.release s).1 = .SUCCESS ∧ (p.release s).2.free_list = s :: p.free_list ∧
    (p.release s).2.well_formed ∧ (p.release s).2.is_occupied s = false ∧
    ∀ t, t ≠ s → (p.release s).2.is_occupied t = p.is_occupied t := by
  obtain ⟨hnd, hfree⟩ := hwf
  have hlt : s < p.slots.length := PacketBufferPool.lt_of_is_occupied ho
  have hnotfree : s ∉ p.free_list := by
    intro hin
    have := (hfree s hin).2
    rw [ho] at this
    cases this
  have hflag : ∀ t, PacketBufferPool.is_occupied
      { kind := p.kind, slots := PacketBufferPool.set_occupied p.slots s false,
        free_list := s :: p.free_list } t =
        if t = s ∧ s < p.slots.length then false else p.is_occupied t :=
    fun t => PacketBufferPool.is_occupied_set_occupied p s t false (s :: p.free_list)
  simp only [PacketBufferPool.release, ho, if_true]
  refine ⟨trivial, trivial, ⟨List.nodup_cons.mpr ⟨hnotfree, hnd⟩, ?_⟩, ?_, ?_⟩
  · intro t ht
    refine ⟨?_, ?_⟩
    · rcases List.mem_cons.mp ht with rfl | hin
      · simpa [PacketBufferPool.capacity, PacketBufferPool.length_set_occupied] using hlt
      · simpa [PacketBufferPool.capacity, PacketBufferPool.length_set_occupied]
          using (hfree t hin).1
    · rw [hflag t]
      by_cases hts : t = s
      · simp only [hts, hlt, and_self, if_true]
      · simp only [hts, false_and, if_false]
        rcases List.mem_cons.mp ht with rfl | hin
        · exact absurd rfl hts
        · exact (hfree t hin).2
  · rw [hflag s]
    simp only [hlt, and_self, if_true]
  · intro t htne
    rw [hflag t]
    simp only [htne, false_and, if_false]

/-- Populating an empty reference from a pool that serves the references. -/
theorem PacketBufferPool.serves_acquire {p p1 : PacketBufferPool} {refs : List (Option Nat)}
    {i s : Nat} (h : p.serves refs) (hacq : p.acquire = .ok (s, p1))
    (hi : refs[i]? = some none) :
    p1.serves (refs.set i (some s)) ∧
    p1.free_count + (live_refs (refs.set i (some s))).length =
      p.free_count + (live_refs refs).length := by
  obtain ⟨hwf, hnd, hocc⟩ := h
  obtain ⟨hfl, hwf1, hs_free, hs_occ, hother⟩ := PacketBufferPool.acquire_spec hwf hacq
  have hperm := live_refs_set_some refs i s hi
  have hs_new : s ∉ live_refs refs := by
    intro hin
    have := hocc s hin
    rw [hs_free] at this
    cases this
  refine ⟨⟨hwf1, ?_, ?_⟩, ?_⟩
  · exact hperm.nodup_iff.mpr (List.nodup_cons.mpr ⟨hs_new, hnd⟩)
  · intro t ht
    rcases List.mem_cons.mp (hperm.mem_iff.mp ht) with rfl | hin
    · exact hs_occ
    · have htne : t ≠ s := fun he => hs_new (he ▸ hin)
      rw [hother t htne]
      exact hocc t hin
  · have hlen := hperm.length_eq
    simp only [List.length_cons] at hlen
    simp only [PacketBufferPool.free_count, hfl, List.length_cons]
    omega

/-- Releasing the slot of one reference of a pool that serves the references. -/
theorem PacketBufferPool.serves_release {p : PacketBufferPool} {refs : List (Option Nat)}
    {i s : Nat} (h : p.serves refs) (hi : refs[i]? = some (some s)) :
    (p.release s).1 = .SUCCESS ∧ (p.release s).2.serves (refs.set i none) ∧
    (p.release s).2.free_count + (live_refs (refs.set i none)).length =
      p.free_count + (live_refs refs).length := by
  obtain ⟨hwf, hnd, hocc⟩ := h
  have hperm := live_refs_set_none refs i s hi
  have hs_in : s ∈ live_refs refs := hperm.mem_iff.mp (List.mem_cons_self _ _)
  obtain ⟨hst, hfl, hwf1, _, hother⟩ := PacketBufferPool.release_spec hwf (hocc s hs_in)
  have hnd1 : (s :: live_refs (refs.set i none)).Nodup := hperm.nodup_iff.mpr hnd
  refine ⟨hst, ⟨hwf1, (List.nodup_cons.mp hnd1).2, ?_⟩, ?_⟩
  · intro t ht
    have htne : t ≠ s := fun he => (List.nodup_cons.mp hnd1).1 (he ▸ ht)
    rw [hother t htne]
    exact hocc t (hperm.mem_iff.mp (List.mem_cons_of_mem _ ht))
  · have hlen := hperm.length_eq
    simp only [List.length_cons] at hlen
    simp only [PacketBufferPool.free_count, hfl, List.length_cons]
    omega

/-- Releasing all references of a pool that serves them: every release
succeeds, every named slot ends in the free-list, nothing leaves it, and the
free count grows by the number of named slots. -/
theorem PacketBufferPool.serves_release_refs (refs : List (Option Nat)) (p : PacketBufferPool)
    (h : p.serves refs) :
    (p.release_refs refs).1 = .SUCCESS ∧ (p.release_refs refs).2.well_formed ∧
    (p.release_refs refs).2.free_count = p.free_count + (live_refs refs).length ∧
    (∀ s ∈ live_refs refs, s ∈ (p.release_refs refs).2.free_list) ∧
    (∀ s ∈ p.free_list, s ∈ (p.release_refs refs).2.free_list) := by
  induction refs generalizing p with
  | nil => exact ⟨rfl, h.1, rfl, fun s hs => (by cases hs), fun s hs => hs⟩
  | cons r rest ih =>
    cases r with
    | none => exact ih p h
    | some s =>
      obtain ⟨hwf, hnd, hocc⟩ := h
      have hnd_cons : (s :: live_refs rest).Nodup := hnd
      obtain ⟨hst, hfl, hwf1, _, hother⟩ :=
        PacketBufferPool.release_spec hwf (hocc s (List.mem_cons_self _ _))
      have hserves1 : (p.release s).2.serves rest := by
        refine ⟨hwf1, (List.nodup_cons.mp hnd_cons).2, ?_⟩
        intro t ht
        have htne : t ≠ s := fun he => (List.nodup_cons.mp hnd_cons).1 (he ▸ ht)
        rw [hother t htne]
        exact hocc t (List.mem_cons_of_mem _ ht)
      obtain ⟨ist, iwf, icount, inamed, ikept⟩ := ih (p.release s).2 hserves1
      have hunfold : p.release_refs (some s :: rest) =
          (PacketBufferPool.first_failure (p.release s).1
            ((p.release s).2.release_refs rest).1, ((p.release s).2.release_refs rest).2) := rfl
      rw [hunfold]
      refine ⟨?_, iwf, ?_, ?_, ?_⟩
      · simp only [hst, ist, PacketBufferPool.first_failure, if_true]
      · have hone : (p.release s).2.free_count = p.free_count + 1 := by
          simp only [PacketBufferPool.free_count, hfl, List.length_cons]
        rw [icount, hone]
        simp only [live_refs, List.length_cons]
        omega
      · intro t ht
        rcases List.mem_cons.mp (show t ∈ s :: live_refs rest from ht) with rfl | hin
        · exact ikept _ (by rw [hfl]; exact List.mem_cons_self _ _)
        · exact inamed t hin
      · intro t ht
        exact ikept t (by rw [hfl]; exact List.mem_cons_of_mem _ ht)

/-- A pool with a sound free-list serves a sequence of empty references. -/
theorem PacketBufferPool.serves_replicate_none {p : PacketBufferPool} (hwf : p.well_formed)
    (n : Nat) : p.serves (List.replicate n none) := by
  refine ⟨hwf, ?_, ?_⟩
  · rw [live_refs_replicate_none]; exact List.nodup_nil
  · rw [live_refs_replicate_none]; intro s hs; cases hs

/-- The books stay balanced when a slot reference is populated. -/
theorem BurstLifecycleManager.accounts_populate {m : BurstLifecycleManager} {d c g f : Nat}
    (h : m.accounts d c g f) (k : MemKind) (i : Nat) : (m.populate d k i).2.accounts d c g f := by
  obtain ⟨hf, b, hb, hcs, hgs, hcc, hgc⟩ := h
  have hget : m.burst_pool.get d = some b := hb
  have hks : (m.pool k).serves (b.packets k) := by cases k; exact hcs; exact hgs
  simp only [BurstLifecycleManager.populate, hb]
  split
  · next hi =>
    split
    · exact ⟨hf, b, hb, hcs, hgs, hcc, hgc⟩
    · next s p hacq =>
      obtain ⟨hnew, hcount⟩ := PacketBufferPool.serves_acquire hks hacq hi
      cases k
      · exact ⟨hf, _, BurstDescriptorPool.get_put hget _, hnew, hgs, hcount.trans hcc, hgc⟩
      · exact ⟨hf, _, BurstDescriptorPool.get_put hget _, hcs, hnew, hcc, hcount.trans hgc⟩
  · exact ⟨hf, b, hb, hcs, hgs, hcc, hgc⟩

/-- The books stay balanced when a single packet is freed. -/
theorem BurstLifecycleManager.accounts_free_pkt {m : BurstLifecycleManager} {d c g f : Nat}
    (h : m.accounts d c g f) (k : MemKind) (i : Nat) :
    (m.adv_net_free_pkt d k i).2.accounts d c g f := by
  obtain ⟨hf, b, hb, hcs, hgs, hcc, hgc⟩ := h
  have hget : m.burst_pool.get d = some b := hb
  have hks : (m.pool k).serves (b.packets k) := by cases k; exact hcs; exact hgs
  simp only [BurstLifecycleManager.adv_net_free_pkt, hb]
  split
  · next s hi =>
    obtain ⟨_, hnew, hcount⟩ := PacketBufferPool.serves_release hks hi
    cases k
    · exact ⟨hf, _, BurstDescriptorPool.get_put hget _, hnew, hgs, hcount.trans hcc, hgc⟩
    · exact ⟨hf, _, BurstDescriptorPool.get_put hget _, hcs, hnew, hcc, hcount.trans hgc⟩
  · exact ⟨hf, b, hb, hcs, hgs, hcc, hgc⟩

/-- Freeing all packets of a valid descriptor whose references the pools serve:
the operation succeeds, the descriptor stays valid and references no slot,
and each pool's free count grows by the number of slots the descriptor named,
all of which end in the free-list. -/
theorem BurstLifecycleManager.free_all_burst_pkts_spec {m : BurstLifecycleManager} {d : Nat}
    {b : BurstDescriptor} (hb : m.burst d = some b) (hcs : m.cpu_pool.serves b.cpu_packets)
    (hgs : m.gpu_pool.serves b.gpu_packets) :
    (m.adv_net_free_all_burst_pkts d).1 = .SUCCESS ∧
    (m.adv_net_free_all_burst_pkts d).2.burst d =
      some { b with cpu_packets := List.replicate b.capacity none
                    gpu_packets := List.replicate b.capacity none } ∧
    (m.adv_net_free_all_burst_pkts d).2.burst_pool.free_list = m.burst_pool.free_list ∧
    (m.adv_net_free_all_burst_pkts d).2.cpu_pool.well_formed ∧
    (m.adv_net_free_all_burst_pkts d).2.gpu_pool.well_formed ∧
    (m.adv_net_free_all_burst_pkts d).2.cpu_pool.free_count =
      m.cpu_pool.free_count + (live_refs b.cpu_packets).length ∧
    (m.adv_net_free_all_burst_pkts d).2.gpu_pool.free_count =
      m.gpu_pool.free_count + (live_refs b.gpu_packets).length ∧
    (∀ s ∈ live_refs b.cpu_packets, s ∈ (m.adv_net_free_all_burst_pkts d).2.cpu_pool.free_list) ∧
    (∀ s ∈ live_refs b.gpu_packets, s ∈ (m.adv_net_free_all_burst_pkts d).2.gpu_pool.free_list) := by
  have hget : m.burst_pool.get d = some b := hb
  obtain ⟨cst, cwf, ccount, cnamed, _⟩ := PacketBufferPool.serves_release_refs _ _ hcs
  obtain ⟨gst, gwf, gcount, gnamed, _⟩ := PacketBufferPool.serves_release_refs _ _ hgs
  simp only [BurstLifecycleManager.adv_net_free_all_burst_pkts, hb]
  refine ⟨?_, BurstDescriptorPool.get_put hget _, rfl, cwf, gwf, ccount, gcount, cnamed, gnamed⟩
  simp only [cst, gst, PacketBufferPool.first_failure, if_true]

/-- The books stay balanced when all packets of the descriptor are freed. -/
theorem BurstLifecycleManager.accounts_free_all {m : BurstLifecycleManager} {d c g f : Nat}
    (h : m.accounts d c g f) : (m.adv_net_free_all_burst_pkts d).2.accounts d c g f := by
  obtain ⟨hf, b, hb, hcs, hgs, hcc, hgc⟩ := h
  obtain ⟨_, hb1, hfl, cwf, gwf, ccount, gcount, _, _⟩ :=
    BurstLifecycleManager.free_all_burst_pkts_spec hb hcs hgs
  refine ⟨?_, _, hb1, PacketBufferPool.serves_replicate_none cwf _,
    PacketBufferPool.serves_replicate_none gwf _, ?_, ?_⟩
  · simp only [BurstDescriptorPool.free_count, hfl]
    exact hf
  · simp only [live_refs_replicate_none, List.length_nil, ccount]
    exact hcc
  · simp only [live_refs_replicate_none, List.length_nil, gcount]
    exact hgc

/-- The books stay balanced under the header mutators. -/
theorem BurstLifecycleManager.accounts_set_hdr {m : BurstLifecycleManager} {d c g f : Nat}
    (h : m.accounts d c g f) (queue_id port_id : Nat) (num : Int) :
    (m.adv_net_set_num_pkts d num).2.accounts d c g f ∧
    (m.adv_net_set_hdr d queue_id port_id num).2.accounts d c g f := by
  obtain ⟨hf, b, hb, hcs, hgs, hcc, hgc⟩ := h
  have hget : m.burst_pool.get d = some b := hb
  constructor
  · simp only [BurstLifecycleManager.adv_net_set_num_pkts, hb]
    exact ⟨hf, _, BurstDescriptorPool.get_put hget _, hcs, hgs, hcc, hgc⟩
  · simp only [BurstLifecycleManager.adv_net_set_hdr, hb]
    exact ⟨hf, _, BurstDescriptorPool.get_put hget _, hcs, hgs, hcc, hgc⟩

/-- Every operation on the descriptor keeps the books balanced. -/
theorem BurstLifecycleManager.accounts_run {d c g f : Nat} (ops : List BurstOp)
    (m : BurstLifecycleManager) (h : m.accounts d c g f) : (m.run d ops).accounts d c g f := by
  induction ops generalizing m with
  | nil => exact h
  | cons op rest ih =>
    apply ih
    cases op with
    | populate k i => exact BurstLifecycleManager.accounts_populate h k i
    | free_pkt k i => exact BurstLifecycleManager.accounts_free_pkt h k i
    | free_all_pkts => exact BurstLifecycleManager.accounts_free_all h
    | set_num_pkts num => exact (BurstLifecycleManager.accounts_set_hdr h 0 0 num).1
    | set_hdr q p num => exact (BurstLifecycleManager.accounts_set_hdr h q p num).2

/-- A descriptor fresh from `allocate` balances the books against the free
counts before the allocation. -/
theorem BurstLifecycleManager.accounts_allocate {m0 m1 : BurstLifecycleManager}
    {capacity d : Nat} (hcpu : m0.cpu_pool.well_formed) (hgpu : m0.gpu_pool.well_formed)
    (hbp : m0.burst_pool.free_list_in_range) (halloc : m0.allocate capacity = .ok (d, m1)) :
    m1.accounts d m0.cpu_pool.free_count m0.gpu_pool.free_count m0.burst_pool.free_count := by
  unfold BurstLifecycleManager.allocate BurstDescriptorPool.allocate at halloc
  cases hfl : m0.burst_pool.free_list with
  | nil => rw [hfl] at halloc; cases halloc
  | cons d0 rest =>
    rw [hfl] at halloc
    simp only [Result.ok.injEq, Prod.mk.injEq] at halloc
    obtain ⟨hd, hm⟩ := halloc
    subst hd
    subst hm
    have hlt : d0 < m0.burst_pool.records.length := hbp d0 (by rw [hfl]; exact List.mem_cons_self _ _)
    refine ⟨?_, BurstDescriptor.fresh capacity, ?_,
      PacketBufferPool.serves_replicate_none hcpu _,
      PacketBufferPool.serves_replicate_none hgpu _, ?_, ?_⟩
    · simp only [BurstDescriptorPool.free_count, hfl, List.length_cons]
    · simp [BurstLifecycleManager.burst, BurstDescriptorPool.get, List.getElem?_set, hlt]
    · simp only [BurstDescriptor.fresh, live_refs_replicate_none, List.length_nil, Nat.add_zero]
    · simp only [BurstDescriptor.fresh, live_refs_replicate_none, List.length_nil, Nat.add_zero]

/-- A record returned to the pool is no valid reference. -/
theorem BurstDescriptorPool.get_free (bp : BurstDescriptorPool) (d : Nat) :
    (bp.free d).get d = none := by
  unfold BurstDescriptorPool.get BurstDescriptorPool.free
  by_cases hlt : d < bp.records.length
  · simp [List.getElem?_set, hlt]
  · simp [List.getElem?_set, hlt]

/-- Free all packets and burst on a valid descriptor: free all packets, then
the record goes back to the descriptor pool. -/
theorem BurstLifecycleManager.free_all_and_burst_eq {m : BurstLifecycleManager} {d : Nat}
    {b : BurstDescriptor} (hb : m.burst d = some b) :
    m.adv_net_free_all_burst_pkts_and_burst d =
      ((m.adv_net_free_all_burst_pkts d).1,
        { (m.adv_net_free_all_burst_pkts d).2 with
          burst_pool := (m.adv_net_free_all_burst_pkts d).2.burst_pool.free d }) := by
  simp only [BurstLifecycleManager.adv_net_free_all_burst_pkts_and_burst, hb]

/-- C3: on a valid descriptor whose references the pools serve and which still
references a live GPU slot, free CPU packets and burst does not succeed
silently: it reports `NullReference`, the descriptor is not recycled and keeps
its GPU references, and the GPU pool is untouched.  On the same descriptor
free all packets and burst succeeds, returns every referenced CPU and GPU
slot (that GPU slot among them) to its pool, and recycles the descriptor.  The
shared-handle forms do the same. -/
theorem free_cpu_and_burst_reports_live_gpu (m : BurstLifecycleManager) (d : Nat)
    (b : BurstDescriptor) (hb : m.burst d = some b)
    (hcs : m.cpu_pool.serves b.cpu_packets) (hgs : m.gpu_pool.serves b.gpu_packets)
    (i g : Nat) (hlive : b.gpu_packets[i]? = some (some g)) :
    m.gpu_pool.is_occupied g = true ∧
    (m.adv_net_free_cpu_pkts_and_burst d).1 = .NULL_PTR ∧
    (m.adv_net_free_cpu_pkts_and_burst d).1 ≠ .SUCCESS ∧
    (∃ b1, (m.adv_net_free_cpu_pkts_and_burst d).2.burst d = some b1 ∧
      b1.gpu_packets = b.gpu_packets) ∧
    (m.adv_net_free_cpu_pkts_and_burst d).2.gpu_pool = m.gpu_pool ∧
    BurstLifecycleManager.adv_net_free_cpu_pkts_and_burst_shared m ⟨d⟩ =
      m.adv_net_free_cpu_pkts_and_burst d ∧
    (m.adv_net_free_all_burst_pkts_and_burst d).1 = .SUCCESS ∧
    (m.adv_net_free_all_burst_pkts_and_burst d).2.cpu_pool.free_count =
      m.cpu_pool.free_count + (live_refs b.cpu_packets).length ∧
    (m.adv_net_free_all_burst_pkts_and_burst d).2.gpu_pool.free_count =
      m.gpu_pool.free_count + (live_refs b.gpu_packets).length ∧
    (∀ s ∈ live_refs b.cpu_packets,
      s ∈ (m.adv_net_free_all_burst_pkts_and_burst d).2.cpu_pool.free_list) ∧
    (∀ s ∈ live_refs b.gpu_packets,
      s ∈ (m.adv_net_free_all_burst_pkts_and_burst d).2.gpu_pool.free_list) ∧
    g ∈ (m.adv_net_free_all_burst_pkts_and_burst d).2.gpu_pool.free_list ∧
    (m.adv_net_free_all_burst_pkts_and_burst d).2.burst d = none ∧
    BurstLifecycleManager.adv_net_free_all_burst_pkts_and_burst_shared m ⟨d⟩ =
      m.adv_net_free_all_burst_pkts_and_burst d := by
  have hget : m.burst_pool.get d = some b := hb
  have hg_named : g ∈ live_refs b.gpu_packets :=
    (live_refs_set_none b.gpu_packets i g hlive).mem_iff.mp (List.mem_cons_self _ _)
  have hany : b.gpu_packets.any Option.isSome = true :=
    List.any_eq_true.mpr ⟨some g, List.getElem?_mem hlive, rfl⟩
  obtain ⟨hst, _, _, _, _, ccount, gcount, cnamed, gnamed⟩ :=
    BurstLifecycleManager.free_all_burst_pkts_spec hb hcs hgs
  have hcpu_eq : m.adv_net_free_cpu_pkts_and_burst d =
      (.NULL_PTR,
        { m with
          cpu_pool := (m.cpu_pool.release_refs b.cpu_packets).2
          burst_pool := m.burst_pool.put d
            { b with cpu_packets := List.replicate b.capacity none } }) := by
    simp only [BurstLifecycleManager.adv_net_free_cpu_pkts_and_burst, hb, hany, if_true]
  refine ⟨hgs.2.2 g hg_named, ?_, ?_, ?_, ?_, rfl, ?_, ?_, ?_, ?_, ?_, ?_, ?_, rfl⟩
  · rw [hcpu_eq]
  · rw [hcpu_eq]
    intro h
    cases h
  · rw [hcpu_eq]
    exact ⟨_, BurstDescriptorPool.get_put hget _, rfl⟩
  · rw [hcpu_eq]
  all_goals rw [BurstLifecycleManager.free_all_and_burst_eq hb]
  · exact hst
  · exact ccount
  · exact gcount
  · exact cnamed
  · exact gnamed
  · exact gnamed g hg_named
  · exact BurstDescriptorPool.get_free _ d

/-- C3 at the scenario of the specification: a descriptor of capacity 2 with
only `cpu[0]` and `gpu[0]` populated; free CPU packets and burst reports
`NullReference`; free all packets and burst instead succeeds and both pools
have all their 2 slots free again. -/
theorem free_cpu_and_burst_reports_live_gpu_witness :
    scenario_manager.burst 0 = some scenario_burst ∧
    (scenario_manager.adv_net_free_cpu_pkts_and_burst 0).1 = .NULL_PTR ∧
    (scenario_manager.adv_net_free_all_burst_pkts_and_burst 0).1 = .SUCCESS ∧
    (scenario_manager.adv_net_free_all_burst_pkts_and_burst 0).2.cpu_pool.free_count = 2 ∧
    (scenario_manager.adv_net_free_all_burst_pkts_and_burst 0).2.gpu_pool.free_count = 2 :=
  have h := free_cpu_and_burst_reports_live_gpu scenario_manager 0 scenario_burst
    (by decide) (by decide) (by decide) 0 0 (by decide)
  ⟨by decide, h.2.1, h.2.2.2.2.2.2.1, h.2.2.2.2.2.2.2.1, h.2.2.2.2.2.2.2.2.1⟩

end holoscan.ops
